import Mathlib

/-!
Shallow embedding of the `rust-dashcore-rpc` client module (`src/client.rs`):
the argument-descriptor model used by the `arg!` / `make_call!` macros, the
raw-mode response decoders of `result_raw!`, the `sighash_string` helper and
the per-method request builders of the `Client` facade.

JSON values are modelled by the inductive `Json`; machine bytes (`u8`) are
modelled as `Nat` (they only flow through hex encode/decode, where no
overflow arises); fallible Rust code returning `Result<T, Error>` is
modelled as `Except Error T`.
-/

/-- Json models `serde_json::Value`: the JSON values that travel in RPC
argument lists and response bodies. -/
inductive Json where
  | null : Json
  | bool (b : Bool) : Json
  | num (n : Nat) : Json
  | str (s : String) : Json
  | arr (xs : List Json) : Json
  | obj (kvs : List (String × Json)) : Json

/-- Error models the crate's error type (`error::Error`).
Modelled from the spec: the crate's `error.rs` is not among the provided
sources; §7 of the spec names the five kinds below (transport, parameter
serialization, structured-decode, hex, consensus-decode failures), and the
`From` conversions applied by `?` / `map_err(Error::from)` in `client.rs`
map hex failures to the hex kind and consensus failures to the
consensus-decode kind. -/
inductive Error where
  | TransportError : Error
  | SerializationError : Error
  | DecodeError : Error
  | HexError : Error
  | ConsensusDecodeError : Error
deriving DecidableEq, Repr

/-- Arg is the argument descriptor enum of `client.rs` (lines 24-28): a
tagged value recording whether the caller supplied the argument. The Rust
variants are `Required`, `OptionalSet` and `OptionalDefault`; the spec
calls the last two `ExplicitlySet` and `DefaultedOptional`. -/
inductive Arg where
  | Required (v : Json) : Arg
  | OptionalSet (v : Json) : Arg
  | OptionalDefault (v : Json) : Arg

/-- isOptionalDefault tests for the `OptionalDefault` variant, the pattern
of the `while let Some(Arg::OptionalDefault(_)) = args.last()` loop in
`make_call!`. -/
def isOptionalDefault : Arg → Bool
  | Arg.OptionalDefault _ => true
  | _ => false

/-- unwrapArg is the unwrapping match of `make_call!` (lines 69-73): every
variant is sent as its carried JSON value. -/
def unwrapArg : Arg → Json
  | Arg.Required v => v
  | Arg.OptionalSet v => v
  | Arg.OptionalDefault v => v

/-- makeCallArgs is step 1 of `make_call!` (lines 64-73): pop descriptors
from the end of the list while the last one is `OptionalDefault`, then
unwrap the remaining descriptors to their JSON values in order. Popping
from the end while a predicate holds is dropping the longest matching
suffix, written here by reversing, dropping from the front, and reversing
back. -/
def makeCallArgs (args : List Arg) : List Json :=
  ((args.reverse.dropWhile isOptionalDefault).reverse).map unwrapArg

/-- trailingDefaultRun is the length of the maximal trailing contiguous run
of `OptionalDefault` descriptors: the number of descriptors the
`make_call!` loop pops. -/
def trailingDefaultRun (args : List Arg) : Nat :=
  (args.reverse.takeWhile isOptionalDefault).length

/-- Request models the outbound JSON-RPC request handed to
`jsonrpc::client::Client::build_request`: a method name and the positional
argument array. -/
structure Request where
  method : String
  params : List Json

/-- argOpt is the two-argument form of the `arg!` macro (lines 38-43): an
explicitly supplied optional value becomes `OptionalSet`, an omitted one
becomes `OptionalDefault` carrying the given default. The one-argument
trailing-comma form `arg!(v,)` is `argOpt v (Json.str "")` (line 44). -/
def argOpt (val : Option Json) (deflt : Json) : Arg :=
  match val with
  | some v => Arg.OptionalSet v
  | none => Arg.OptionalDefault deflt

/-- collectArgs models the sequence of `args.push($arg)` statements in
`make_call!`: each `arg!` expression contains a `?`, so the first
serialization failure aborts the whole call before any request is built. -/
def collectArgs : List (Except Error Arg) → Except Error (List Arg)
  | [] => Except.ok []
  | Except.error e :: _ => Except.error e
  | Except.ok a :: rest => (collectArgs rest).map (fun as => a :: as)

/-- makeCall is the whole of `make_call!` (lines 57-78): evaluate the
argument expressions in order (aborting on the first serialization error),
trim the trailing defaulted run, build the request and hand it to the
transport. The transport is the external `jsonrpc` client, taken here as a
function parameter. -/
def makeCall (send : Request → Except Error Json) (method : String)
    (argResults : List (Except Error Arg)) : Except Error Json :=
  match collectArgs argResults with
  | Except.error e => Except.error e
  | Except.ok args => send { method := method, params := makeCallArgs args }

/-- hexDigitVal gives the value of one hexadecimal digit character, or
`none` for a non-hex character; part of the model of the external `hex`
crate used by `hex::decode`. -/
def hexDigitVal (c : Char) : Option Nat :=
  if '0' ≤ c ∧ c ≤ '9' then some (c.toNat - '0'.toNat)
  else if 'a' ≤ c ∧ c ≤ 'f' then some (c.toNat - 'a'.toNat + 10)
  else if 'A' ≤ c ∧ c ≤ 'F' then some (c.toNat - 'A'.toNat + 10)
  else none

/-- hexDecodeChars decodes a character list two digits at a time; a
non-hex character or an odd length is a failure, as in `hex::decode`. -/
def hexDecodeChars : List Char → Except Unit (List Nat)
  | [] => Except.ok []
  | [_] => Except.error ()
  | c1 :: c2 :: rest =>
    match hexDigitVal c1, hexDigitVal c2 with
    | some hi, some lo => (hexDecodeChars rest).map (fun bs => (16 * hi + lo) :: bs)
    | _, _ => Except.error ()

/-- hexDecode models `hex::decode`: a hex string to its byte list, failing
on malformed hex. -/
def hexDecode (s : String) : Except Unit (List Nat) :=
  hexDecodeChars s.data

/-- hexDigitChar is the lowercase hex digit for a value below 16; part of
the model of `hex::encode`. -/
def hexDigitChar (n : Nat) : Char :=
  if n < 10 then Char.ofNat ('0'.toNat + n) else Char.ofNat ('a'.toNat + (n - 10))

/-- hexEncodeBytes writes each byte as two lowercase hex digits. -/
def hexEncodeBytes : List Nat → List Char
  | [] => []
  | b :: rest => hexDigitChar (b / 16 % 16) :: hexDigitChar (b % 16) :: hexEncodeBytes rest

/-- hexEncode models `hex::encode` on a byte list. -/
def hexEncode (bs : List Nat) : String :=
  String.mk (hexEncodeBytes bs)

/-- intoResultOptString models `r.into_result::<Option<String>>()`:
deserializing the JSON response body into `Option<String>`, where `null`
is `None`, a string is `Some`, and any other shape is a structured decode
failure. -/
def intoResultOptString : Json → Except Error (Option String)
  | Json.null => Except.ok none
  | Json.str s => Except.ok (some s)
  | _ => Except.error Error.DecodeError

/-- intoResultString models `r.into_result::<String>()`: the body must be
a JSON string. -/
def intoResultString : Json → Except Error String
  | Json.str s => Except.ok s
  | _ => Except.error Error.DecodeError

/-- resultRawOptWith is the `Option` branch of `result_raw!` (lines
90-105), generic over the hex decoder and the consensus decoder for the
target type (in the source the macro is generic over `$raw_type`, and the
two decoders are the external `hex` and `bitcoin` codec libraries): read
the body as `Option<String>`; on `Some hex`, hex-decode then
consensus-decode; on `None`, return `Ok(None)` at once. -/
def resultRawOptWith {T : Type} (hexDec : String → Except Unit (List Nat))
    (consDec : List Nat → Except Unit T) (resp : Except Error Json) :
    Except Error (Option T) :=
  match resp.bind intoResultOptString with
  | Except.error e => Except.error e
  | Except.ok (some hex) =>
    match hexDec hex with
    | Except.error _ => Except.error Error.HexError
    | Except.ok raw =>
      match consDec raw with
      | Except.ok val => Except.ok (some val)
      | Except.error _ => Except.error Error.ConsensusDecodeError
  | Except.ok none => Except.ok none

/-- resultRawOpt is `result_raw!`'s `Option` branch with the concrete hex
decoder. -/
def resultRawOpt {T : Type} (consDec : List Nat → Except Unit T)
    (resp : Except Error Json) : Except Error (Option T) :=
  resultRawOptWith hexDecode consDec resp

/-- resultRaw is the plain branch of `result_raw!` (lines 106-112): read
the body as a string, hex-decode it (`HexError` on failure), then
consensus-decode the bytes (`ConsensusDecodeError` on failure). -/
def resultRaw {T : Type} (consDec : List Nat → Except Unit T)
    (resp : Except Error Json) : Except Error T :=
  match resp.bind intoResultString with
  | Except.error e => Except.error e
  | Except.ok h =>
    match hexDecode h with
    | Except.error _ => Except.error Error.HexError
    | Except.ok raw =>
      match consDec raw with
      | Except.ok val => Except.ok val
      | Except.error _ => Except.error Error.ConsensusDecodeError

/-- SigHashType is the signature-hash-type enum consumed from the
`bitcoin` crate, with the six variants matched by `sighash_string`. -/
inductive SigHashType where
  | All : SigHashType
  | None : SigHashType
  | Single : SigHashType
  | AllPlusAnyoneCanPay : SigHashType
  | NonePlusAnyoneCanPay : SigHashType
  | SinglePlusAnyoneCanPay : SigHashType
deriving DecidableEq, Repr

/-- sighash_string is the helper of `client.rs` lines 214-226: the
canonical uppercase token for each variant, and `none` for `None`. -/
def sighash_string : Option SigHashType → Option String
  | none => none
  | some sh =>
    some (match sh with
      | SigHashType.All => "ALL"
      | SigHashType.None => "NONE"
      | SigHashType.Single => "SINGLE"
      | SigHashType.AllPlusAnyoneCanPay => "ALL|ANYONECANPAY"
      | SigHashType.NonePlusAnyoneCanPay => "NONE|ANYONECANPAY"
      | SigHashType.SinglePlusAnyoneCanPay => "SINGLE|ANYONECANPAY")

/-- serOptHash is `serde_json::to_value` on an `Option<Sha256dHash>`: a
hash serializes to its hex string, `None` serializes to JSON `null`. -/
def serOptHash : Option String → Json
  | some h => Json.str h
  | none => Json.null

/-- serQueryOptions is `serde_json::to_value` on the
`HashMap<String, String>` of `listunspent` query options. -/
def serQueryOptions (q : List (String × Json)) : Json :=
  Json.obj q

/-- getblockheaderRequest builds the request of `Client::getblockheader`
(lines 147-150): `make_call!(self, "getblockheader", arg!(hash),
arg!(true))`. The hash is modelled by its hex-string serialization. -/
def getblockheaderRequest (hash : String) : Request :=
  { method := "getblockheader",
    params := makeCallArgs [Arg.Required (Json.str hash), Arg.Required (Json.bool true)] }

/-- getblockheaderVerboseRequest builds the request of
`Client::getblockheader_verbose` (lines 152-155): the same call,
`arg!(hash)` and `arg!(true)`, decoded structurally instead of raw. -/
def getblockheaderVerboseRequest (hash : String) : Request :=
  { method := "getblockheader",
    params := makeCallArgs [Arg.Required (Json.str hash), Arg.Required (Json.bool true)] }

/-- getrawtransactionRequest builds the request of
`Client::getrawtransaction` (lines 157-164): `arg!(txid)`, `arg!(false)`,
and `arg!(block_hash)` - the single-argument (`Required`) form of `arg!`,
so `None` is serialized to JSON `null` rather than marked
`OptionalDefault`. -/
def getrawtransactionRequest (txid : String) (block_hash : Option String) : Request :=
  { method := "getrawtransaction",
    params := makeCallArgs [Arg.Required (Json.str txid), Arg.Required (Json.bool false),
      Arg.Required (serOptHash block_hash)] }

/-- listunspentRequest builds the request of `Client::listunspent` (lines
185-196): `arg!(minconf, 0)`, `arg!(maxconf, 9999999)`,
`arg!(addresses, empty!())`, `arg!(include_unsafe_flag, true)`,
`arg!(query_options,)`. Addresses are modelled by their string
serializations and query options by their JSON object. -/
def listunspentRequest (minconf : Option Nat) (maxconf : Option Nat)
    (addresses : Option (List String)) (include_unsafe_flag : Option Bool)
    (query_options : Option (List (String × Json))) : Request :=
  { method := "listunspent",
    params := makeCallArgs [
      argOpt (minconf.map Json.num) (Json.num 0),
      argOpt (maxconf.map Json.num) (Json.num 9999999),
      argOpt (addresses.map (fun as => Json.arr (as.map Json.str))) (Json.arr []),
      argOpt (include_unsafe_flag.map Json.bool) (Json.bool true),
      argOpt (query_options.map serQueryOptions) (Json.str "")] }

/-- signrawtransactionRequest builds the request of
`Client::signrawtransaction` (lines 198-210): `arg!(hex::encode(tx))`,
`arg!(utxos, empty!())`, `arg!(Some(empty!()), empty!())` (the private
keys are not implemented: an empty array is always explicitly set,
whatever `private_keys` holds), and `arg!(sighash,)` where `sighash =
sighash_string(sighash_type)`. UTXO records are modelled by their JSON
serializations. -/
def signrawtransactionRequest (tx : List Nat) (utxos : Option (List Json))
    (private_keys : Option (List (List Nat))) (sighash_type : Option SigHashType) : Request :=
  { method := "signrawtransaction",
    params := makeCallArgs [
      Arg.Required (Json.str (hexEncode tx)),
      argOpt (utxos.map Json.arr) (Json.arr []),
      argOpt (some (Json.arr [])) (Json.arr []),
      argOpt ((sighash_string sighash_type).map Json.str) (Json.str "")] }

/-! ## Properties of the trailing-default trim -/

theorem dropWhile_eq_drop_len {α : Type} (p : α → Bool) (l : List α) :
    l.dropWhile p = l.drop (l.takeWhile p).length := by
  induction l with
  | nil => rfl
  | cons a l ih =>
    by_cases h : p a
    · simp [List.dropWhile_cons, List.takeWhile_cons, h, ih]
    · simp [List.dropWhile_cons, List.takeWhile_cons, h]

theorem makeCallArgs_eq_take (args : List Arg) :
    makeCallArgs args
      = (args.take (args.length - trailingDefaultRun args)).map unwrapArg := by
  unfold makeCallArgs trailingDefaultRun
  rw [dropWhile_eq_drop_len, ← List.rdrop_eq_reverse_drop_reverse, List.rdrop]

theorem makeCallArgs_length (args : List Arg) :
    (makeCallArgs args).length = args.length - trailingDefaultRun args := by
  rw [makeCallArgs_eq_take, List.length_map, List.length_take]
  exact Nat.min_eq_left (Nat.sub_le _ _)

theorem drop_length_sub_append {α : Type} (l₁ l₂ : List α) :
    (l₁ ++ l₂).drop ((l₁ ++ l₂).length - l₂.length) = l₂ := by
  rw [List.length_append, Nat.add_sub_cancel, List.drop_left]

theorem drop_len_sub_eq_rtake {α : Type} (p : α → Bool) (l : List α) :
    l.drop (l.length - (l.reverse.takeWhile p).length) = (l.reverse.takeWhile p).reverse := by
  have h : (l.reverse.dropWhile p).reverse ++ (l.reverse.takeWhile p).reverse = l := by
    rw [← List.reverse_append, List.takeWhile_append_dropWhile, List.reverse_reverse]
  have h2 := drop_length_sub_append (l.reverse.dropWhile p).reverse
    (l.reverse.takeWhile p).reverse
  rw [h, List.length_reverse] at h2
  exact h2

theorem drop_trailing (args : List Arg) :
    args.drop (args.length - trailingDefaultRun args)
      = (args.reverse.takeWhile isOptionalDefault).reverse :=
  drop_len_sub_eq_rtake isOptionalDefault args

theorem trailing_isDefault (args : List Arg) (j : Nat) (a : Arg)
    (hm : args.length - trailingDefaultRun args ≤ j) (hj : args[j]? = some a) :
    isOptionalDefault a = true := by
  have hdrop : (args.drop (args.length - trailingDefaultRun args))[j -
      (args.length - trailingDefaultRun args)]? = some a := by
    rw [List.getElem?_drop, Nat.add_sub_cancel' hm]
    exact hj
  have hmem : a ∈ args.drop (args.length - trailingDefaultRun args) := by
    obtain ⟨h1, h2⟩ := List.getElem?_eq_some.mp hdrop
    exact h2 ▸ List.getElem_mem h1
  rw [drop_trailing, List.mem_reverse] at hmem
  exact List.mem_takeWhile_imp hmem

/-- Claim C1: the call builder's output is the input with its maximal
trailing contiguous run of defaulted-optional descriptors removed and the
remaining descriptors unwrapped to their JSON values in order (so the
output carries no descriptor markers); its length is the input length
minus that run's length; and any entry followed by a later
required or explicitly-set entry - in particular a defaulted-optional one,
kept as its default value - stays at its original position. -/
theorem make_call_trailing_trim (args : List Arg) :
    makeCallArgs args
        = (args.take (args.length - trailingDefaultRun args)).map unwrapArg
    ∧ (makeCallArgs args).length = args.length - trailingDefaultRun args
    ∧ ∀ (i j : Nat) (a : Arg), i < j → args[j]? = some a → isOptionalDefault a = false →
        (makeCallArgs args)[i]? = (args[i]?).map unwrapArg := by
  refine ⟨makeCallArgs_eq_take args, makeCallArgs_length args, ?_⟩
  intro i j a hij hj ha
  have hjm : j < args.length - trailingDefaultRun args := by
    by_contra hc
    push_neg at hc
    have hd := trailing_isDefault args j a hc hj
    rw [ha] at hd
    exact Bool.false_ne_true hd
  have him : i < args.length - trailingDefaultRun args := Nat.lt_trans hij hjm
  rw [makeCallArgs_eq_take, List.getElem?_map, List.getElem?_take, if_pos him]

/-- Witness for Claim C1: on the sequence defaulted(0), required(true),
defaulted(7), the retained defaulted entry keeps position 0 with its
default value. -/
theorem make_call_trailing_trim_witness :
    (makeCallArgs [Arg.OptionalDefault (Json.num 0), Arg.Required (Json.bool true),
        Arg.OptionalDefault (Json.num 7)])[0]?
      = some (Json.num 0) := by
  have h := make_call_trailing_trim [Arg.OptionalDefault (Json.num 0),
    Arg.Required (Json.bool true), Arg.OptionalDefault (Json.num 7)]
  have h2 := h.2.2 0 1 (Arg.Required (Json.bool true)) (by decide) (by rfl) (by rfl)
  rw [h2]
  rfl

/-- Claim C2 is refuted by the code: `Client::getrawtransaction` passes
`block_hash` through the single-argument (`Required`) form of `arg!`, so a
`None` block hash is serialized to JSON `null` and is not part of a
trailing defaulted run; the outbound positional array is
`[txid, false, null]`, three elements, not `[txid, false]`. This theorem
evaluates the request builder at the failing input. -/
theorem getrawtransaction_none_sends_null :
    getrawtransactionRequest "ab" none
      = { method := "getrawtransaction",
          params := [Json.str "ab", Json.bool false, Json.null] } := rfl

/-- Claim C3 is false at tx = [0xab], utxos = None, sighash = None: the
trim scan pops only the sighash slot, then stops at the explicitly-set
private-keys placeholder, so the UTXO default (the empty array) is
retained at position 1 and the outbound array has three elements - not the
at-most-two the claim's "neither default appears" reading allows. -/
theorem signrawtransaction_trim_counterexample :
    (signrawtransactionRequest [171] none none none).params
        = [Json.str "ab", Json.arr [], Json.arr []]
    ∧ ¬ (signrawtransactionRequest [171] none none none).params.length ≤ 2 :=
  ⟨rfl, by decide⟩

/-- Claim C3 (amended): with utxos = None and sighash = None, only the
trailing sighash slot is trimmed; the UTXO default (empty array) is
retained at position 1 because the always-sent private-keys placeholder
follows it, giving the outbound array
[hex(tx), [], []]. -/
theorem signrawtransaction_none_none_params (tx : List Nat)
    (pk : Option (List (List Nat))) :
    (signrawtransactionRequest tx none pk none).params
      = [Json.str (hexEncode tx), Json.arr [], Json.arr []] := rfl

/-- Claim C4: a raw-mode Option decode of a literal `null` body yields the
successful no-value outcome, for every hex decoder and every consensus
decoder - the result does not depend on either, so neither is invoked on
this path. -/
theorem result_raw_option_null {T : Type} (hexDec : String → Except Unit (List Nat))
    (consDec : List Nat → Except Unit T) :
    resultRawOptWith hexDec consDec (Except.ok Json.null) = Except.ok none := rfl

/-- Claim C5: in a raw-mode decode of a string body, malformed hex yields
`HexError`; well-formed hex whose bytes the consensus decoder rejects
yields `ConsensusDecodeError`; and a successful decode returns exactly the
value produced by the consensus decoder on the hex-decoded bytes - never a
partially populated one. -/
theorem result_raw_error_paths {T : Type} (consDec : List Nat → Except Unit T)
    (s : String) :
    (hexDecode s = Except.error () →
        resultRaw consDec (Except.ok (Json.str s)) = Except.error Error.HexError)
    ∧ (∀ bs, hexDecode s = Except.ok bs → consDec bs = Except.error () →
        resultRaw consDec (Except.ok (Json.str s)) = Except.error Error.ConsensusDecodeError)
    ∧ (∀ t, resultRaw consDec (Except.ok (Json.str s)) = Except.ok t →
        ∃ bs, hexDecode s = Except.ok bs ∧ consDec bs = Except.ok t) := by
  have hred : resultRaw consDec (Except.ok (Json.str s))
      = (match hexDecode s with
        | Except.error _ => Except.error Error.HexError
        | Except.ok raw =>
          match consDec raw with
          | Except.ok val => Except.ok val
          | Except.error _ => Except.error Error.ConsensusDecodeError) := rfl
  refine ⟨?_, ?_, ?_⟩
  · intro h
    rw [hred, h]
  · intro bs h1 h2
    rw [hred, h1]
    show (match consDec bs with
      | Except.ok val => Except.ok val
      | Except.error _ => Except.error Error.ConsensusDecodeError)
        = Except.error Error.ConsensusDecodeError
    rw [h2]
  · intro t ht
    rw [hred] at ht
    cases hh : hexDecode s with
    | error e =>
      rw [hh] at ht
      exact Except.noConfusion ht
    | ok bs =>
      rw [hh] at ht
      have ht2 : (match consDec bs with
          | Except.ok val => Except.ok val
          | Except.error _ => Except.error Error.ConsensusDecodeError)
            = Except.ok t := ht
      cases hc : consDec bs with
      | error e =>
        rw [hc] at ht2
        exact Except.noConfusion ht2
      | ok v =>
        rw [hc] at ht2
        injection ht2 with hv
        exact ⟨bs, rfl, by rw [hc, hv]⟩

/-- Witness for Claim C5: the string "zz" is not hex and decodes to
`HexError`; the string "ab" is hex but a consensus decoder that rejects
every byte list turns it into `ConsensusDecodeError`. -/
theorem result_raw_error_paths_witness :
    resultRaw (fun _ => (Except.error () : Except Unit Unit)) (Except.ok (Json.str "zz"))
        = Except.error Error.HexError
    ∧ resultRaw (fun _ => (Except.error () : Except Unit Unit)) (Except.ok (Json.str "ab"))
        = Except.error Error.ConsensusDecodeError := by
  constructor
  · exact (result_raw_error_paths (fun _ => Except.error ()) "zz").1 (by rfl)
  · exact (result_raw_error_paths (fun _ => Except.error ()) "ab").2.1 [171] (by rfl) (by rfl)

/-- Claim C6: a list-unspent request with only the query options supplied
keeps all five slots: the defaulted min-confirmations (0),
max-confirmations (9999999), address filter (empty list) and
include-unsafe (true) slots are retained because the explicitly-set query
options follow them. -/
theorem listunspent_query_options_request (q : List (String × Json)) :
    (listunspentRequest none none none none (some q)).params
        = [Json.num 0, Json.num 9999999, Json.arr [], Json.bool true, Json.obj q]
    ∧ (listunspentRequest none none none none (some q)).params.length = 5 :=
  ⟨rfl, rfl⟩

/-- Claim C7: `sighash_string` maps each of the six variants to its
canonical uppercase token and `None` to no value; consequently, in
sign-raw-transaction - where the sighash slot is last, with no later
required or explicitly-set argument - the slot is omitted exactly when no
sighash type is supplied, and carries the token as its fourth element
otherwise. -/
theorem sighash_serialization :
    sighash_string (some SigHashType.All) = some "ALL"
    ∧ sighash_string (some SigHashType.None) = some "NONE"
    ∧ sighash_string (some SigHashType.Single) = some "SINGLE"
    ∧ sighash_string (some SigHashType.AllPlusAnyoneCanPay) = some "ALL|ANYONECANPAY"
    ∧ sighash_string (some SigHashType.NonePlusAnyoneCanPay) = some "NONE|ANYONECANPAY"
    ∧ sighash_string (some SigHashType.SinglePlusAnyoneCanPay) = some "SINGLE|ANYONECANPAY"
    ∧ sighash_string none = none
    ∧ (∀ (tx : List Nat) (utxos : Option (List Json)) (pk : Option (List (List Nat))),
        (signrawtransactionRequest tx utxos pk none).params.length = 3)
    ∧ (∀ (tx : List Nat) (utxos : Option (List Json)) (pk : Option (List (List Nat)))
          (sh : SigHashType),
        (signrawtransactionRequest tx utxos pk (some sh)).params.length = 4
        ∧ (signrawtransactionRequest tx utxos pk (some sh)).params[3]?
            = (sighash_string (some sh)).map Json.str) :=
  ⟨rfl, rfl, rfl, rfl, rfl, rfl, rfl, fun _ _ _ => rfl, fun _ _ _ _ => ⟨rfl, rfl⟩⟩

/-- Claim C8: if any argument's JSON serialization fails, the call aborts
with that error before a request is built: the outcome is the same error
for every transport function, so the transport is never invoked. -/
theorem serialization_failure_aborts (method : String)
    (argResults : List (Except Error Arg))
    (h : ∃ e, Except.error e ∈ argResults) :
    ∃ e, collectArgs argResults = Except.error e
        ∧ ∀ send : Request → Except Error Json,
            makeCall send method argResults = Except.error e := by
  obtain ⟨e, he⟩ := h
  induction argResults with
  | nil => cases he
  | cons r rest ih =>
    cases r with
    | error e0 =>
      refine ⟨e0, rfl, fun send => ?_⟩
      unfold makeCall
      rfl
    | ok a =>
      have he' : Except.error e ∈ rest := by
        rcases List.mem_cons.mp he with h1 | h2
        · exact Except.noConfusion h1
        · exact h2
      obtain ⟨e', hc, _⟩ := ih he'
      have hcc : collectArgs (Except.ok a :: rest) = Except.error e' := by
        show (collectArgs rest).map (fun as => a :: as) = Except.error e'
        rw [hc]
        rfl
      refine ⟨e', hcc, fun send => ?_⟩
      unfold makeCall
      rw [hcc]

/-- Witness for Claim C8: a single failing argument aborts the call with
its serialization error whatever the transport would answer. -/
theorem serialization_failure_aborts_witness :
    makeCall (fun _ => Except.ok Json.null) "getblockcount"
        [Except.error Error.SerializationError]
      = Except.error Error.SerializationError := by
  obtain ⟨e, hc, hs⟩ := serialization_failure_aborts "getblockcount"
    [Except.error Error.SerializationError] ⟨Error.SerializationError, by simp⟩
  have hrfl : collectArgs [Except.error Error.SerializationError]
      = Except.error Error.SerializationError := rfl
  have he : Error.SerializationError = e := by
    have h2 := hrfl.symm.trans hc
    injection h2
  rw [← he] at hs
  exact hs _

/-- Claim C9: two sign-raw-transaction calls equal in everything but the
private keys build the same outbound request, and the private-keys slot
always carries the empty-array placeholder. -/
theorem signrawtransaction_private_keys_ignored (tx : List Nat)
    (utxos : Option (List Json)) (sh : Option SigHashType)
    (pk1 pk2 : Option (List (List Nat))) :
    signrawtransactionRequest tx utxos pk1 sh = signrawtransactionRequest tx utxos pk2 sh
    ∧ (signrawtransactionRequest tx utxos pk1 sh).params[2]? = some (Json.arr []) := by
  refine ⟨rfl, ?_⟩
  cases sh with
  | none => rfl
  | some s => rfl

/-- Claim C10: the binary and the structured header-by-hash operations
build identical outbound requests: method "getblockheader" with positional
arguments [hash, true]; they differ only in the decoder applied to the
response. -/
theorem getblockheader_requests_identical (hash : String) :
    getblockheaderRequest hash = getblockheaderVerboseRequest hash
    ∧ getblockheaderRequest hash
        = { method := "getblockheader", params := [Json.str hash, Json.bool true] } :=
  ⟨rfl, rfl⟩
